import Mathlib

/-!
# Order execution engine: verification of the specification against the source

Shallow embedding of the order-execution engine (a TypeScript service built
around `MockDexRouter`, `OrderQueueService`, `WebSocketManager` and the
Fastify order routes).  Numbers that are JavaScript `number`s are modelled as
rationals; `Math.random()` draws are passed in as explicit rational
parameters (each in `[0, 1)`); asynchronous effects are modelled as explicit
traces of actions applied to an explicit store state.
-/

namespace OrderEngine

/-- `enum DEX` from the types module. -/
inductive DEX where
  | raydium
  | meteora
  deriving DecidableEq, Repr

/-- `enum OrderStatus` from the types module. -/
inductive OrderStatus where
  | pending
  | routing
  | building
  | submitted
  | confirmed
  | failed
  deriving DecidableEq, Repr

/-- `enum OrderType` from the types module. -/
inductive OrderType where
  | market
  | limit
  | sniper
  deriving DecidableEq, Repr

/-- `interface DexQuote` from the types module. -/
structure DexQuote where
  dex : DEX
  price : ℚ
  fee : ℚ
  estimatedOutput : ℚ
  deriving DecidableEq, Repr

/-- `interface ExecutionResult` from the types module. -/
structure ExecutionResult where
  txHash : String
  executedPrice : ℚ
  amountOut : ℚ
  dex : DEX
  deriving DecidableEq, Repr

/-- `interface Order` from the types module: the job payload built by the
submission route.  The optional result columns live on the persisted row,
modelled separately as `OrderRow`; the two `Date` fields are irrelevant to
every claim and are dropped. -/
structure Order where
  orderId : String
  type : OrderType
  tokenIn : String
  tokenOut : String
  amountIn : ℚ
  status : OrderStatus
  attempts : Nat
  deriving DecidableEq, Repr

/-- `MockDexRouter.getRaydiumQuote`.  The two `Math.random()` draws are the
parameters `r1` (base price) and `r2` (perturbation), each in `[0, 1)`. -/
def getRaydiumQuote (amount r1 r2 : ℚ) : DexQuote :=
  let basePrice := 5 / 100 + r1 * (1 / 10)
  let price := basePrice * (98 / 100 + r2 * (4 / 100))
  let fee : ℚ := 3 / 1000
  { dex := DEX.raydium
    price := price
    fee := fee
    estimatedOutput := amount * price * (1 - fee) }

/-- `MockDexRouter.getMeteorQuote`.  The two `Math.random()` draws are the
parameters `r1` and `r2`, each in `[0, 1)`. -/
def getMeteorQuote (amount r1 r2 : ℚ) : DexQuote :=
  let basePrice := 5 / 100 + r1 * (1 / 10)
  let price := basePrice * (97 / 100 + r2 * (5 / 100))
  let fee : ℚ := 2 / 1000
  { dex := DEX.meteora
    price := price
    fee := fee
    estimatedOutput := amount * price * (1 - fee) }

/-- `MockDexRouter.getBestQuote`: fetch both venue quotes (concurrently in the
source; the joined pair is deterministic in the four random draws), then
return `raydiumQuote.estimatedOutput > meteoraQuote.estimatedOutput ?
raydiumQuote : meteoraQuote`. -/
def getBestQuote (amount ra1 ra2 rm1 rm2 : ℚ) : DexQuote :=
  let raydiumQuote := getRaydiumQuote amount ra1 ra2
  let meteoraQuote := getMeteorQuote amount rm1 rm2
  if raydiumQuote.estimatedOutput > meteoraQuote.estimatedOutput then
    raydiumQuote
  else
    meteoraQuote

/-- The character table `0123456789abcdef` of
`MockDexRouter.generateMockTxHash`. -/
def mockChars : List Char :=
  "0123456789abcdef".toList

/-- `MockDexRouter.generateMockTxHash`: 64 iterations, each appending
`chars[Math.floor(Math.random() * chars.length)]`.  The 64 random index draws
(`Math.floor` of a draw in `[0, 1)` times 16 is an integer in `0..15`) are
passed in as `idx`. -/
def generateMockTxHash (idx : Nat → Fin 16) : String :=
  String.mk ((List.range 64).map fun i => mockChars.getD (idx i).val '0')

/-- `MockDexRouter.executeSwap`.  The slippage draw `Math.random()` is the
parameter `r` in `[0, 1)`; the tx-hash index draws are `idx`.  The source
computes `slippage = Math.random() * 0.01` and
`executedPrice = quote.price * (1 - slippage)`; this operation never fails
(it is a total function here, as the mock is in the source). -/
def executeSwap (order : Order) (quote : DexQuote) (r : ℚ) (idx : Nat → Fin 16) :
    ExecutionResult :=
  let slippage := r * (1 / 100)
  let executedPrice := quote.price * (1 - slippage)
  { txHash := generateMockTxHash idx
    executedPrice := executedPrice
    amountOut := order.amountIn * executedPrice * (1 - quote.fee)
    dex := quote.dex }

/-- The `data` field of `interface WebSocketMessage`. -/
structure WSMessageData where
  dex : Option DEX := none
  price : Option ℚ := none
  txHash : Option String := none
  error : Option String := none
  deriving DecidableEq, Repr

/-- `interface WebSocketMessage` (the timestamp `Date` is modelled as a
natural number). -/
structure WSMessage where
  orderId : String
  status : OrderStatus
  timestamp : Nat
  data : Option WSMessageData := none
  deriving DecidableEq, Repr

/-- The wire text of an `OrderStatus` enum value. -/
def statusText : OrderStatus → String
  | OrderStatus.pending => "pending"
  | OrderStatus.routing => "routing"
  | OrderStatus.building => "building"
  | OrderStatus.submitted => "submitted"
  | OrderStatus.confirmed => "confirmed"
  | OrderStatus.failed => "failed"

/-- The wire text of a `DEX` enum value. -/
def dexText : DEX → String
  | DEX.raydium => "raydium"
  | DEX.meteora => "meteora"

/-- Render an optional field, `null` when absent. -/
def optionField {α : Type} (f : α → String) : Option α → String
  | none => "null"
  | some a => f a

/-- Render the optional `data` payload of a status message. -/
def dataText (d : WSMessageData) : String :=
  String.intercalate "," [optionField dexText d.dex, optionField toString d.price,
    optionField id d.txHash, optionField id d.error]

/-- Serialization of a status message: stands for the
`JSON.stringify(message)` call in `WebSocketManager.sendUpdate` (a concrete,
injective-on-the-relevant-fields rendering; the exact JSON syntax is
irrelevant to every claim). -/
def serializeWSMessage (m : WSMessage) : String :=
  String.intercalate "|" [m.orderId, statusText m.status, toString m.timestamp,
    optionField dataText m.data]

/-- The socket handle as the Hub uses it: only `readyState` (1 = OPEN),
`send` and `close` are touched. -/
structure Socket where
  readyState : Nat
  deriving DecidableEq, Repr

/-- The Hub state: the `connections : Map<string, any>` of
`WebSocketManager`, modelled as an association list with at most one entry
per key. -/
abbrev WSConnections : Type := List (String × Socket)

/-- `Map.get`: the first entry with the given key, if any. -/
def mapGet (m : WSConnections) (k : String) : Option Socket :=
  (List.find? (fun p => p.1 == k) m).map Prod.snd

/-- `Map.set`: replace the entry if the key is present, append otherwise. -/
def mapSet (m : WSConnections) (k : String) (v : Socket) : WSConnections :=
  if (List.find? (fun p => p.1 == k) m).isSome then
    List.map (fun p => if p.1 == k then (k, v) else p) m
  else
    m ++ [(k, v)]

/-- `Map.delete`: drop every entry with the given key. -/
def mapDelete (m : WSConnections) (k : String) : WSConnections :=
  List.filter (fun p => !(p.1 == k)) m

/-- `WebSocketManager.register`. -/
def register (m : WSConnections) (orderId : String) (socket : Socket) : WSConnections :=
  mapSet m orderId socket

/-- `WebSocketManager.sendUpdate`: look the channel up; if present and
`readyState === 1`, send `JSON.stringify(message)`; otherwise do nothing.
The return value is the list of payloads actually sent (the map itself is
not modified); the function is total, so the operation never throws. -/
def sendUpdate (m : WSConnections) (orderId : String) (message : WSMessage) : List String :=
  match mapGet m orderId with
  | some socket => if socket.readyState = 1 then [serializeWSMessage message] else []
  | none => []

/-- `WebSocketManager.unregister`. -/
def unregister (m : WSConnections) (orderId : String) : WSConnections :=
  mapDelete m orderId

/-- `WebSocketManager.closeConnection`: if a channel is present, call its
`close()` and unregister it.  The second component counts the `close()`
invocations performed. -/
def closeConnection (m : WSConnections) (orderId : String) : WSConnections × Nat :=
  match mapGet m orderId with
  | some _ => (unregister m orderId, 1)
  | none => (m, 0)

/-- A persisted row of the `orders` table (schema from the database config
module; `updated_at` is modelled as a write counter standing for `NOW()`). -/
structure OrderRow where
  order_id : String
  type : OrderType
  token_in : String
  token_out : String
  amount_in : ℚ
  status : OrderStatus
  dex : Option DEX
  executed_price : Option ℚ
  tx_hash : Option String
  error : Option String
  attempts : Nat
  updated_at : Nat
  deriving DecidableEq, Repr

/-- The row inserted by the submission route (`INSERT INTO orders ...`): the
result columns start out NULL. -/
def initialRow (order : Order) : OrderRow :=
  { order_id := order.orderId
    type := order.type
    token_in := order.tokenIn
    token_out := order.tokenOut
    amount_in := order.amountIn
    status := order.status
    dex := none
    executed_price := none
    tx_hash := none
    error := none
    attempts := order.attempts
    updated_at := 0 }

/-- One observable action of `OrderQueueService.processOrder`: a push through
the Notification Hub, or one of the three SQL updates. -/
inductive Action where
  | notify (orderId : String) (status : OrderStatus) (data : Option WSMessageData)
  | dbStatus (orderId : String) (status : OrderStatus)
  | dbResult (orderId : String) (result : ExecutionResult)
  | dbError (orderId : String) (errMsg : String)
  deriving DecidableEq, Repr

/-- `OrderQueueService.updateOrderStatus`: first the synchronous
`wsManager.sendUpdate`, then the awaited
`UPDATE orders SET status = $1, updated_at = NOW() WHERE order_id = $2`. -/
def updateOrderStatus (orderId : String) (status : OrderStatus)
    (data : Option WSMessageData) : List Action :=
  [Action.notify orderId status data, Action.dbStatus orderId status]

/-- The `data` payload of the BUILDING transition:
`{ dex: bestQuote.dex, price: bestQuote.price }`. -/
def buildingData (q : DexQuote) : WSMessageData :=
  { dex := some q.dex, price := some q.price }

/-- The `data` payload of the CONFIRMED transition:
`{ txHash: result.txHash, price: result.executedPrice, dex: result.dex }`. -/
def confirmedData (res : ExecutionResult) : WSMessageData :=
  { txHash := some res.txHash, price := some res.executedPrice, dex := some res.dex }

/-- The `data` payload of the FAILED transition: `{ error: error.message }`. -/
def failedData (msg : String) : WSMessageData :=
  { error := some msg }

/-- The awaited operations inside the `try` block of `processOrder`, in
program order; any of them may reject. -/
inductive Step where
  | statusPending
  | statusRouting
  | quoteFetch
  | statusBuilding
  | statusSubmitted
  | swapExec
  | statusConfirmed
  | saveResult
  deriving DecidableEq, Repr

/-- Fault injection for one `processOrder` run: either every awaited
operation resolves, or exactly one of them rejects with the given message. -/
inductive Fault where
  | ok
  | raise (step : Step) (msg : String)
  deriving DecidableEq, Repr

/-- The `catch` block of `processOrder`:
`updateOrderStatus(orderId, FAILED, { error })` followed by
`saveOrderError(orderId, error.message)` (a separate SQL update), after
which the error is rethrown. -/
def failTail (orderId msg : String) : List Action :=
  updateOrderStatus orderId OrderStatus.failed (some (failedData msg)) ++
    [Action.dbError orderId msg]

/-- `OrderQueueService.processOrder` as a trace of actions plus its outcome
(`Except.error` models the rethrow out of the `catch` block, which fails the
job attempt so the queue retries it).  A rejection of one of the three
`updateOrderStatus` awaits happens after that call already pushed its
notification synchronously, hence the lone `notify` in those branches; a
rejection of `getBestQuote`, `executeSwap` or `saveOrderResult` leaves no
partial action of its own. -/
def processOrder (order : Order) (f : Fault) (ra1 ra2 rm1 rm2 slip : ℚ)
    (idx : Nat → Fin 16) : List Action × Except String Unit :=
  let oid := order.orderId
  let bestQuote := getBestQuote order.amountIn ra1 ra2 rm1 rm2
  let result := executeSwap order bestQuote slip idx
  let u0 := updateOrderStatus oid OrderStatus.pending none
  let u1 := updateOrderStatus oid OrderStatus.routing none
  let u3 := updateOrderStatus oid OrderStatus.building (some (buildingData bestQuote))
  let u4 := updateOrderStatus oid OrderStatus.submitted none
  let u6 := updateOrderStatus oid OrderStatus.confirmed (some (confirmedData result))
  match f with
  | Fault.ok =>
      (u0 ++ u1 ++ u3 ++ u4 ++ u6 ++ [Action.dbResult oid result], Except.ok ())
  | Fault.raise Step.statusPending msg =>
      ([Action.notify oid OrderStatus.pending none] ++ failTail oid msg,
        Except.error msg)
  | Fault.raise Step.statusRouting msg =>
      (u0 ++ [Action.notify oid OrderStatus.routing none] ++ failTail oid msg,
        Except.error msg)
  | Fault.raise Step.quoteFetch msg =>
      (u0 ++ u1 ++ failTail oid msg, Except.error msg)
  | Fault.raise Step.statusBuilding msg =>
      (u0 ++ u1 ++ [Action.notify oid OrderStatus.building (some (buildingData bestQuote))] ++
        failTail oid msg, Except.error msg)
  | Fault.raise Step.statusSubmitted msg =>
      (u0 ++ u1 ++ u3 ++ [Action.notify oid OrderStatus.submitted none] ++ failTail oid msg,
        Except.error msg)
  | Fault.raise Step.swapExec msg =>
      (u0 ++ u1 ++ u3 ++ u4 ++ failTail oid msg, Except.error msg)
  | Fault.raise Step.statusConfirmed msg =>
      (u0 ++ u1 ++ u3 ++ u4 ++ [Action.notify oid OrderStatus.confirmed (some (confirmedData result))] ++
        failTail oid msg, Except.error msg)
  | Fault.raise Step.saveResult msg =>
      (u0 ++ u1 ++ u3 ++ u4 ++ u6 ++ failTail oid msg, Except.error msg)

/-- Effect of one action on an order row.  Notifications do not touch the
store; the three SQL updates mirror their `SET` lists exactly, guarded by
the `WHERE order_id = $n` clause; every write bumps `updated_at` (NOW()). -/
def applyAction (row : OrderRow) (a : Action) : OrderRow :=
  match a with
  | Action.notify _ _ _ => row
  | Action.dbStatus oid status =>
      if oid = row.order_id then
        { row with status := status, updated_at := row.updated_at + 1 }
      else row
  | Action.dbResult oid res =>
      if oid = row.order_id then
        { row with
            dex := some res.dex
            executed_price := some res.executedPrice
            tx_hash := some res.txHash
            updated_at := row.updated_at + 1 }
      else row
  | Action.dbError oid msg =>
      if oid = row.order_id then
        { row with
            error := some msg
            attempts := row.attempts + 1
            updated_at := row.updated_at + 1 }
      else row

/-- Apply a trace of actions to a row, left to right. -/
def applyTrace (row : OrderRow) : List Action → OrderRow
  | [] => row
  | a :: rest => applyTrace (applyAction row a) rest

/-- All store states a trace passes through, the initial one included. -/
def storeStates (row : OrderRow) : List Action → List OrderRow
  | [] => [row]
  | a :: rest => row :: storeStates (applyAction row a) rest

/-- Whether an action is the notification for the given order and status. -/
def isNotifyFor (a : Action) (oid : String) (status : OrderStatus) : Bool :=
  match a with
  | Action.notify oid2 status2 _ => decide (oid2 = oid ∧ status2 = status)
  | _ => false

/-- Scan a trace remembering the previous action: every `dbStatus` write must
be immediately preceded by the notification of the same order and status. -/
def checkAux : Option Action → List Action → Bool
  | _, [] => true
  | prev, a :: rest =>
      (match a, prev with
       | Action.dbStatus oid status, some p => isNotifyFor p oid status
       | Action.dbStatus _ _, none => false
       | _, _ => true) && checkAux (some a) rest

/-- Every store status write in the trace is immediately preceded by the
notification push of that same transition. -/
def notifyPrecedesDbStatus (l : List Action) : Bool :=
  checkAux none l

/-- The body of the `POST /api/orders/execute` handler, as destructured:
each field is absent (`none`) or present. -/
structure SubmitRequest where
  type : Option OrderType
  tokenIn : Option String
  tokenOut : Option String
  amountIn : Option ℚ
  deriving DecidableEq, Repr

/-- JavaScript truthiness of an optional string: `undefined` and `""` are
falsy. -/
def truthyStr : Option String → Bool
  | none => false
  | some s => !(s == "")

/-- JavaScript truthiness of an optional number: `undefined` and `0` are
falsy. -/
def truthyNum : Option ℚ → Bool
  | none => false
  | some a => !(a == 0)

/-- The validation guard of the handler:
`!type || !tokenIn || !tokenOut || !amountIn || amountIn <= 0` (the last
disjunct is only reached with `amountIn` present, so the `getD 0` default is
never the deciding value). -/
def invalidOrderParams (r : SubmitRequest) : Bool :=
  !r.type.isSome || !truthyStr r.tokenIn || !truthyStr r.tokenOut ||
    !truthyNum r.amountIn || decide (r.amountIn.getD 0 ≤ 0)

/-- The HTTP reply of the submission handler. -/
structure SubmitOutcome where
  code : Nat
  error : Option String
  orderId : Option String
  deriving DecidableEq, Repr

/-- The `POST /api/orders/execute` handler: validate; on failure reply 400
`Invalid order parameters` touching neither the store nor the queue; on
success build the order (freshly minted id, status PENDING, attempts 0),
insert its row, enqueue the job, reply 201. -/
def handleExecute (db : List OrderRow) (jobs : List Order) (r : SubmitRequest)
    (newId : String) : SubmitOutcome × List OrderRow × List Order :=
  if invalidOrderParams r then
    ({ code := 400, error := some "Invalid order parameters", orderId := none }, db, jobs)
  else
    let order : Order :=
      { orderId := newId
        type := r.type.getD OrderType.market
        tokenIn := r.tokenIn.getD ""
        tokenOut := r.tokenOut.getD ""
        amountIn := r.amountIn.getD 0
        status := OrderStatus.pending
        attempts := 0 }
    ({ code := 201, error := none, orderId := some newId },
      db ++ [initialRow order], jobs ++ [order])

/-- The job lists of the queue backend, by category. -/
structure QueueState where
  waiting : List String
  active : List String
  completed : List String
  failed : List String
  delayed : List String
  paused : List String
  deriving DecidableEq, Repr

/-- One `queue.clean(0, 10000, kind)` call on a category: removes up to
10000 jobs of that category. -/
def cleanJobs (jobsList : List String) : List String :=
  List.drop 10000 jobsList

/-- Queue backend plus persisted order history. -/
structure EngineState where
  queue : QueueState
  orders : List OrderRow
  deriving DecidableEq, Repr

/-- `OrderQueueService.resetQueue`: `clean` the completed, failed, waiting,
delayed and paused job categories.  No other field is touched. -/
def resetQueue (s : EngineState) : EngineState :=
  { s with queue := { s.queue with
      completed := cleanJobs s.queue.completed,
      failed := cleanJobs s.queue.failed,
      waiting := cleanJobs s.queue.waiting,
      delayed := cleanJobs s.queue.delayed,
      paused := cleanJobs s.queue.paused } }

/-- A concrete order fixture (the pair and amount of the repository tests). -/
def testOrder : Order :=
  { orderId := "order-1"
    type := OrderType.market
    tokenIn := "SOL"
    tokenOut := "USDC"
    amountIn := 100
    status := OrderStatus.pending
    attempts := 0 }

/-- A concrete quote fixture (the mock quote of the repository tests:
price 0.1, fee 0.003, estimated output 9.97). -/
def testQuote : DexQuote :=
  { dex := DEX.raydium
    price := 1 / 10
    fee := 3 / 1000
    estimatedOutput := 997 / 100 }

/-- Claim C5: every quote of either venue satisfies
`estimatedOutput = amount * price * (1 - fee)` exactly, the fees are the
per-venue constants, and the Raydium fee `0.003` is strictly greater than the
Meteora fee `0.002`, for every random sample. -/
theorem quote_output_and_fee_spec (amount r1 r2 r3 r4 : ℚ) :
    (getRaydiumQuote amount r1 r2).estimatedOutput =
      amount * (getRaydiumQuote amount r1 r2).price *
        (1 - (getRaydiumQuote amount r1 r2).fee) ∧
    (getMeteorQuote amount r3 r4).estimatedOutput =
      amount * (getMeteorQuote amount r3 r4).price *
        (1 - (getMeteorQuote amount r3 r4).fee) ∧
    (getRaydiumQuote amount r1 r2).fee = 3 / 1000 ∧
    (getMeteorQuote amount r3 r4).fee = 2 / 1000 ∧
    (getMeteorQuote amount r3 r4).fee < (getRaydiumQuote amount r1 r2).fee := by
  refine ⟨rfl, rfl, rfl, rfl, ?_⟩
  simp only [getRaydiumQuote, getMeteorQuote]
  norm_num

/-- Claim C1, counterexample: at the random draws
`ra1 = 0, ra2 = 49/1994, rm1 = 0, rm2 = 1/5` (all legal `Math.random()`
values) the two estimated outputs are exactly equal, and `getBestQuote`
returns the Meteora quote, not the Raydium quote the claim names as the
tie-break winner. -/
theorem getBestQuote_tie_returns_meteora :
    (getRaydiumQuote 100 0 (49 / 1994)).estimatedOutput =
      (getMeteorQuote 100 0 (1 / 5)).estimatedOutput ∧
    (getBestQuote 100 0 (49 / 1994) 0 (1 / 5)).dex = DEX.meteora := by
  constructor
  · simp only [getRaydiumQuote, getMeteorQuote]
    norm_num
  · simp only [getBestQuote, getRaydiumQuote, getMeteorQuote]
    norm_num

/-- Claim C1, amended: `getBestQuote` returns the quote with the larger
`estimatedOutput` of the two venues queried; when the two outputs are exactly
equal the Meteora quote is returned — the second operand of the
strict-greater-than comparison (the venue fetched second in configuration
order), not the first. -/
theorem getBestQuote_spec (amount ra1 ra2 rm1 rm2 : ℚ) :
    (getBestQuote amount ra1 ra2 rm1 rm2).estimatedOutput =
      max (getRaydiumQuote amount ra1 ra2).estimatedOutput
        (getMeteorQuote amount rm1 rm2).estimatedOutput ∧
    ((getMeteorQuote amount rm1 rm2).estimatedOutput <
        (getRaydiumQuote amount ra1 ra2).estimatedOutput →
      getBestQuote amount ra1 ra2 rm1 rm2 = getRaydiumQuote amount ra1 ra2) ∧
    ((getRaydiumQuote amount ra1 ra2).estimatedOutput ≤
        (getMeteorQuote amount rm1 rm2).estimatedOutput →
      getBestQuote amount ra1 ra2 rm1 rm2 = getMeteorQuote amount rm1 rm2) := by
  unfold getBestQuote
  rcases lt_or_ge (getMeteorQuote amount rm1 rm2).estimatedOutput
      (getRaydiumQuote amount ra1 ra2).estimatedOutput with h | h
  · rw [if_pos h]
    exact ⟨(max_eq_left h.le).symm, fun _ => rfl, fun h2 => absurd h2 (not_le.mpr h)⟩
  · rw [if_neg (not_lt.mpr h)]
    exact ⟨(max_eq_right h).symm, fun h2 => absurd h2 (not_lt.mpr h),
      fun _ => rfl⟩

/-- Witness for `getBestQuote_spec` at the tie input: both implications are
discharged at the equal-output draws, where the Meteora branch applies. -/
theorem getBestQuote_spec_witness :
    getBestQuote 100 0 (49 / 1994) 0 (1 / 5) = getMeteorQuote 100 0 (1 / 5) := by
  have h := (getBestQuote_spec 100 0 (49 / 1994) 0 (1 / 5)).2.2
  apply h
  simp only [getRaydiumQuote, getMeteorQuote]
  norm_num

/-- The mock settlement reference always has exactly 64 characters. -/
theorem generateMockTxHash_length (idx : Nat → Fin 16) :
    (generateMockTxHash idx).length = 64 := by
  simp [generateMockTxHash, String.length]

/-- Every character of the mock settlement reference is drawn from the
lowercase-hex table. -/
theorem generateMockTxHash_mem (idx : Nat → Fin 16) :
    ∀ c ∈ (generateMockTxHash idx).toList, c ∈ mockChars := by
  intro c hc
  simp only [generateMockTxHash, String.toList, String.data] at hc
  rw [List.mem_map] at hc
  obtain ⟨i, _, rfl⟩ := hc
  have h16 : (idx i).val < mockChars.length := by
    have h := (idx i).isLt
    simp only [mockChars, List.length]
    omega
  rw [List.getD_eq_getElem mockChars '0' h16]
  exact List.getElem_mem h16

/-- Claim C4: for every order and quote with `quote.price > 0` and every
slippage draw in `[0, 1)`, `executeSwap` returns a result whose `txHash` is a
string of exactly 64 characters all drawn from the lowercase-hex alphabet,
whose `executedPrice` is strictly positive, and whose `amountOut` equals
`order.amountIn * executedPrice * (1 - quote.fee)` exactly; the function is
total, so the mock never raises. -/
theorem executeSwap_spec (order : Order) (quote : DexQuote) (r : ℚ)
    (idx : Nat → Fin 16) (_h0 : 0 ≤ r) (h1 : r < 1) (hp : 0 < quote.price) :
    (executeSwap order quote r idx).txHash.length = 64 ∧
    (∀ c ∈ (executeSwap order quote r idx).txHash.toList, c ∈ mockChars) ∧
    0 < (executeSwap order quote r idx).executedPrice ∧
    (executeSwap order quote r idx).amountOut =
      order.amountIn * (executeSwap order quote r idx).executedPrice *
        (1 - quote.fee) := by
  refine ⟨generateMockTxHash_length idx, generateMockTxHash_mem idx, ?_, rfl⟩
  show 0 < quote.price * (1 - r * (1 / 100))
  have hs : r * (1 / 100) < 1 := by nlinarith
  exact mul_pos hp (by linarith)

/-- Witness for `executeSwap_spec` at the mock fixture of the repository
tests (price 0.1, fee 0.003) with slippage draw 0 and all tx-hash index
draws 0. -/
theorem executeSwap_spec_witness :
    (0 : ℚ) ≤ 0 ∧ (0 : ℚ) < 1 ∧ 0 < testQuote.price ∧
    (executeSwap testOrder testQuote 0 (fun _ => 0)).txHash.length = 64 ∧
    0 < (executeSwap testOrder testQuote 0 (fun _ => 0)).executedPrice ∧
    (executeSwap testOrder testQuote 0 (fun _ => 0)).amountOut =
      testOrder.amountIn *
        (executeSwap testOrder testQuote 0 (fun _ => 0)).executedPrice *
        (1 - testQuote.fee) := by
  have h := executeSwap_spec testOrder testQuote 0 (fun _ => 0) (by norm_num)
    (by norm_num) (by norm_num [testQuote])
  exact ⟨by norm_num, by norm_num, by norm_num [testQuote], h.1, h.2.2.1, h.2.2.2⟩

/-- Deleting a key from the connections map makes lookup of that key miss. -/
theorem mapGet_mapDelete (m : WSConnections) (k : String) :
    mapGet (mapDelete m k) k = none := by
  induction m with
  | nil => rfl
  | cons p rest ih =>
      by_cases h : p.1 == k
      · have hd : mapDelete (p :: rest) k = mapDelete rest k := by
          simp [mapDelete, List.filter_cons, h]
        rw [hd]
        exact ih
      · have hd : mapDelete (p :: rest) k = p :: mapDelete rest k := by
          simp [mapDelete, List.filter_cons, h]
        have hg : mapGet (p :: mapDelete rest k) k = mapGet (mapDelete rest k) k := by
          simp [mapGet, List.find?_cons, h]
        rw [hd, hg]
        exact ih

/-- Claim C6: `sendUpdate` delivers exactly one serialized copy of the event
iff a channel is registered for the id and its `readyState` is 1 (OPEN);
to an unregistered or non-open channel it delivers zero events (as a total
function it never throws); after `unregister` or `closeConnection` it
delivers zero events for that id; and `closeConnection` performs the
`close()` call exactly once when a channel is present, zero times
otherwise. -/
theorem sendUpdate_contract (m : WSConnections) (oid : String) (msg : WSMessage)
    (s : Socket) :
    (mapGet m oid = some s → s.readyState = 1 →
      sendUpdate m oid msg = [serializeWSMessage msg]) ∧
    (mapGet m oid = some s → s.readyState ≠ 1 → sendUpdate m oid msg = []) ∧
    (mapGet m oid = none → sendUpdate m oid msg = []) ∧
    sendUpdate (unregister m oid) oid msg = [] ∧
    sendUpdate (closeConnection m oid).1 oid msg = [] ∧
    (mapGet m oid = some s → (closeConnection m oid).2 = 1) ∧
    (mapGet m oid = none → (closeConnection m oid).2 = 0) := by
  refine ⟨?_, ?_, ?_, ?_, ?_, ?_, ?_⟩
  · intro hm h1
    simp [sendUpdate, hm, h1]
  · intro hm h1
    simp [sendUpdate, hm, h1]
  · intro hm
    simp [sendUpdate, hm]
  · simp [sendUpdate, unregister, mapGet_mapDelete]
  · rcases hm : mapGet m oid with _ | sk
    · simp [closeConnection, hm, sendUpdate]
    · simp [closeConnection, hm, sendUpdate, unregister, mapGet_mapDelete]
  · intro hm
    simp [closeConnection, hm]
  · intro hm
    simp [closeConnection, hm]

/-- Witness for `sendUpdate_contract`: a manager with one open channel for
`order-1` delivers exactly one serialized event, and closing invokes
`close()` exactly once. -/
theorem sendUpdate_contract_witness :
    mapGet [("order-1", ({ readyState := 1 } : Socket))] "order-1" =
      some { readyState := 1 } ∧
    sendUpdate [("order-1", ({ readyState := 1 } : Socket))] "order-1"
        { orderId := "order-1", status := OrderStatus.pending, timestamp := 0,
          data := none } =
      [serializeWSMessage
        { orderId := "order-1", status := OrderStatus.pending, timestamp := 0,
          data := none }] ∧
    (closeConnection [("order-1", ({ readyState := 1 } : Socket))] "order-1").2 = 1 := by
  have hm : mapGet [("order-1", ({ readyState := 1 } : Socket))] "order-1" =
      some { readyState := 1 } := by
    simp [mapGet]
  have h := sendUpdate_contract [("order-1", { readyState := 1 })] "order-1"
    { orderId := "order-1", status := OrderStatus.pending, timestamp := 0,
      data := none }
    { readyState := 1 }
  exact ⟨hm, h.1 hm rfl, h.2.2.2.2.2.1 hm⟩

/-- Claim C8: in every run of the pipeline — every fault injection, every
random draw — each store status write in the trace of `processOrder` is
immediately preceded by the notification push of that same transition, so
the store update never precedes the notification push. -/
theorem processOrder_notify_before_store (order : Order) (f : Fault)
    (ra1 ra2 rm1 rm2 slip : ℚ) (idx : Nat → Fin 16) :
    notifyPrecedesDbStatus (processOrder order f ra1 ra2 rm1 rm2 slip idx).1 = true := by
  rcases f with _ | ⟨st, msg⟩
  · simp [processOrder, notifyPrecedesDbStatus, checkAux, isNotifyFor,
      updateOrderStatus, failTail]
  · cases st <;>
      simp [processOrder, notifyPrecedesDbStatus, checkAux, isNotifyFor,
        updateOrderStatus, failTail]

/-- Claim C7: whenever any awaited step of `processOrder` raises, the catch
block transitions the order to FAILED with the error message in the status
event, persists the error message and bumps the attempt counter in a store
write separate from (and after) the FAILED status write, and rethrows the
error (failing the job attempt so the queue retries it); the attempt counter
is bumped by no action of the fault-free run. -/
theorem processOrder_failure_path (order : Order) (st : Step) (msg : String)
    (ra1 ra2 rm1 rm2 slip : ℚ) (idx : Nat → Fin 16) :
    (processOrder order (Fault.raise st msg) ra1 ra2 rm1 rm2 slip idx).2 =
      Except.error msg ∧
    (processOrder order (Fault.raise st msg) ra1 ra2 rm1 rm2 slip idx).1.reverse.take 3 =
      [Action.dbError order.orderId msg,
       Action.dbStatus order.orderId OrderStatus.failed,
       Action.notify order.orderId OrderStatus.failed (some (failedData msg))] ∧
    (applyTrace (initialRow order)
        (processOrder order (Fault.raise st msg) ra1 ra2 rm1 rm2 slip idx).1).status =
      OrderStatus.failed ∧
    (applyTrace (initialRow order)
        (processOrder order (Fault.raise st msg) ra1 ra2 rm1 rm2 slip idx).1).error =
      some msg ∧
    (applyTrace (initialRow order)
        (processOrder order (Fault.raise st msg) ra1 ra2 rm1 rm2 slip idx).1).attempts =
      order.attempts + 1 ∧
    (applyTrace (initialRow order)
        (processOrder order Fault.ok ra1 ra2 rm1 rm2 slip idx).1).attempts =
      order.attempts := by
  cases st <;>
    simp [processOrder, applyTrace, applyAction, updateOrderStatus, failTail,
      initialRow]

/-- Claim C3, counterexample: on the fault-free run of the concrete order
fixture, the store state reached right after the CONFIRMED status write
(state 10 of the trace) has `status = confirmed` while `tx_hash` is still
NULL — the settlement fields are written by a separate, later query, not
atomically with the status. -/
theorem confirmed_state_without_result_fields :
    ((storeStates (initialRow testOrder)
        (processOrder testOrder Fault.ok 0 0 0 0 0 (fun _ => 0)).1).get? 10).map
        (fun row => (row.status, row.tx_hash)) =
      some (OrderStatus.confirmed, none) := by
  rfl

/-- Claim C3, amended: the CONFIRMED status write and the settlement-field
write are two separate store writes, the status write first and the
result write (venue, executed price, settlement reference) immediately
after it; once the fault-free trace has fully landed, the persisted row has
`status = CONFIRMED` with `dex`, `executed_price` and `tx_hash` all
present and equal to the execution result. -/
theorem processOrder_confirmed_persists (order : Order) (ra1 ra2 rm1 rm2 slip : ℚ)
    (idx : Nat → Fin 16) :
    (applyTrace (initialRow order)
        (processOrder order Fault.ok ra1 ra2 rm1 rm2 slip idx).1).status =
      OrderStatus.confirmed ∧
    (applyTrace (initialRow order)
        (processOrder order Fault.ok ra1 ra2 rm1 rm2 slip idx).1).dex =
      some (executeSwap order (getBestQuote order.amountIn ra1 ra2 rm1 rm2) slip idx).dex ∧
    (applyTrace (initialRow order)
        (processOrder order Fault.ok ra1 ra2 rm1 rm2 slip idx).1).executed_price =
      some (executeSwap order (getBestQuote order.amountIn ra1 ra2 rm1 rm2) slip idx).executedPrice ∧
    (applyTrace (initialRow order)
        (processOrder order Fault.ok ra1 ra2 rm1 rm2 slip idx).1).tx_hash =
      some (executeSwap order (getBestQuote order.amountIn ra1 ra2 rm1 rm2) slip idx).txHash ∧
    (processOrder order Fault.ok ra1 ra2 rm1 rm2 slip idx).1.reverse.take 2 =
      [Action.dbResult order.orderId
        (executeSwap order (getBestQuote order.amountIn ra1 ra2 rm1 rm2) slip idx),
       Action.dbStatus order.orderId OrderStatus.confirmed] := by
  simp [processOrder, applyTrace, applyAction, updateOrderStatus, initialRow]

/-- Claim C2, counterexample: a submission whose `tokenIn` equals its
`tokenOut` (with every field present and a positive amount) is not
rejected: the handler replies 201, inserts one order row and enqueues one
job, so the `tokenIn == tokenOut` rejection the claim describes does not
exist in the handler. -/
theorem handleExecute_same_token_accepted :
    (handleExecute [] []
        { type := some OrderType.market, tokenIn := some "SOL",
          tokenOut := some "SOL", amountIn := some 100 } "order-1").1.code = 201 ∧
    (handleExecute [] []
        { type := some OrderType.market, tokenIn := some "SOL",
          tokenOut := some "SOL", amountIn := some 100 } "order-1").1.error = none ∧
    (handleExecute [] []
        { type := some OrderType.market, tokenIn := some "SOL",
          tokenOut := some "SOL", amountIn := some 100 } "order-1").2.1.length = 1 ∧
    (handleExecute [] []
        { type := some OrderType.market, tokenIn := some "SOL",
          tokenOut := some "SOL", amountIn := some 100 } "order-1").2.2.length = 1 := by
  decide

/-- Claim C2, amended: for every submission in which any of `type`,
`tokenIn`, `tokenOut`, `amountIn` is missing, or `amountIn ≤ 0`, the
handler rejects with error `Invalid order parameters`, inserts no order
row and enqueues no job.  Equality of `tokenIn` and `tokenOut` is not
checked by this handler and does not cause rejection. -/
theorem handleExecute_rejects_invalid (db : List OrderRow) (jobs : List Order)
    (r : SubmitRequest) (newId : String)
    (h : r.type = none ∨ r.tokenIn = none ∨ r.tokenOut = none ∨ r.amountIn = none ∨
      ∃ a, r.amountIn = some a ∧ a ≤ 0) :
    handleExecute db jobs r newId =
      ({ code := 400, error := some "Invalid order parameters", orderId := none },
        db, jobs) := by
  have hinv : invalidOrderParams r = true := by
    rcases h with h | h | h | h | ⟨a, ha, hle⟩ <;>
      simp [invalidOrderParams, truthyStr, truthyNum, *]
  simp [handleExecute, hinv]

/-- Witness for `handleExecute_rejects_invalid`: a submission with amount
`-5` is rejected with `Invalid order parameters`, and neither the store nor
the queue is touched. -/
theorem handleExecute_rejects_invalid_witness :
    (∃ a, (some (-5 : ℚ)) = some a ∧ a ≤ 0) ∧
    handleExecute [] []
        { type := some OrderType.market, tokenIn := some "SOL",
          tokenOut := some "USDC", amountIn := some (-5) } "order-2" =
      ({ code := 400, error := some "Invalid order parameters", orderId := none },
        [], []) :=
  ⟨⟨-5, rfl, by norm_num⟩,
    handleExecute_rejects_invalid [] [] _ "order-2"
      (Or.inr (Or.inr (Or.inr (Or.inr ⟨-5, rfl, by norm_num⟩))))⟩

/-- Claim C9, counterexample: the reset operation does not drain the active
category — an active job survives `resetQueue` unchanged, against the
claim that every one of the five categories (waiting, active, completed,
failed, delayed) is drained. -/
theorem resetQueue_keeps_active :
    (resetQueue
        { queue :=
            { waiting := ["w1"], active := ["a1"], completed := ["c1"],
              failed := ["f1"], delayed := ["d1"], paused := ["p1"] },
          orders := [] }).queue.active = ["a1"] := by
  rfl

/-- Claim C9, amended: the administrative reset drains the waiting,
completed, failed, delayed and paused job categories (each `clean` call
removes up to 10000 jobs, hence the length bounds) but leaves active jobs
untouched, and it does not modify the persisted order history. -/
theorem resetQueue_spec (s : EngineState)
    (hw : s.queue.waiting.length ≤ 10000) (hc : s.queue.completed.length ≤ 10000)
    (hf : s.queue.failed.length ≤ 10000) (hd : s.queue.delayed.length ≤ 10000)
    (hp : s.queue.paused.length ≤ 10000) :
    (resetQueue s).queue.waiting = [] ∧
    (resetQueue s).queue.completed = [] ∧
    (resetQueue s).queue.failed = [] ∧
    (resetQueue s).queue.delayed = [] ∧
    (resetQueue s).queue.paused = [] ∧
    (resetQueue s).queue.active = s.queue.active ∧
    (resetQueue s).orders = s.orders :=
  ⟨List.drop_eq_nil_of_le hw, List.drop_eq_nil_of_le hc, List.drop_eq_nil_of_le hf,
    List.drop_eq_nil_of_le hd, List.drop_eq_nil_of_le hp, rfl, rfl⟩

/-- Witness for `resetQueue_spec` at a one-job-per-category state. -/
theorem resetQueue_spec_witness :
    (resetQueue
        { queue :=
            { waiting := ["w1"], active := ["a1"], completed := ["c1"],
              failed := ["f1"], delayed := ["d1"], paused := ["p1"] },
          orders := [] }).queue.waiting = [] ∧
    (resetQueue
        { queue :=
            { waiting := ["w1"], active := ["a1"], completed := ["c1"],
              failed := ["f1"], delayed := ["d1"], paused := ["p1"] },
          orders := [] }).orders = [] := by
  have h := resetQueue_spec
    { queue :=
        { waiting := ["w1"], active := ["a1"], completed := ["c1"],
          failed := ["f1"], delayed := ["d1"], paused := ["p1"] },
      orders := [] }
    (by decide) (by decide) (by decide) (by decide) (by decide)
  exact ⟨h.1, h.2.2.2.2.2.2⟩

/-- Claim C10: the per-transition store write performed by
`updateOrderStatus` modifies only the `status` and `updated_at` columns of
the matching row — identity, pair, amount, attempts, venue, executed
price, settlement reference and error are all left unchanged, whatever
`data` payload (venue, price, ...) the transition carries. -/
theorem updateOrderStatus_store_frame (row : OrderRow) (oid : String)
    (status : OrderStatus) (d : Option WSMessageData) :
    (applyTrace row (updateOrderStatus oid status d)).order_id = row.order_id ∧
    (applyTrace row (updateOrderStatus oid status d)).type = row.type ∧
    (applyTrace row (updateOrderStatus oid status d)).token_in = row.token_in ∧
    (applyTrace row (updateOrderStatus oid status d)).token_out = row.token_out ∧
    (applyTrace row (updateOrderStatus oid status d)).amount_in = row.amount_in ∧
    (applyTrace row (updateOrderStatus oid status d)).attempts = row.attempts ∧
    (applyTrace row (updateOrderStatus oid status d)).dex = row.dex ∧
    (applyTrace row (updateOrderStatus oid status d)).executed_price =
      row.executed_price ∧
    (applyTrace row (updateOrderStatus oid status d)).tx_hash = row.tx_hash ∧
    (applyTrace row (updateOrderStatus oid status d)).error = row.error ∧
    (oid = row.order_id →
      (applyTrace row (updateOrderStatus oid status d)).status = status) := by
  by_cases h : oid = row.order_id <;>
    simp [applyTrace, applyAction, updateOrderStatus, h]

/-- Witness for `updateOrderStatus_store_frame`: the BUILDING transition on
the fixture row changes the status and nothing else; its venue/price
payload is not written. -/
theorem updateOrderStatus_store_frame_witness :
    ("order-1" = (initialRow testOrder).order_id) ∧
    (applyTrace (initialRow testOrder)
        (updateOrderStatus "order-1" OrderStatus.building
          (some (buildingData testQuote)))).status = OrderStatus.building ∧
    (applyTrace (initialRow testOrder)
        (updateOrderStatus "order-1" OrderStatus.building
          (some (buildingData testQuote)))).dex = (initialRow testOrder).dex := by
  have h := updateOrderStatus_store_frame (initialRow testOrder) "order-1"
    OrderStatus.building (some (buildingData testQuote))
  exact ⟨rfl, h.2.2.2.2.2.2.2.2.2.2 rfl, h.2.2.2.2.2.2.1⟩

end OrderEngine
